import Mathlib

/-!
Verification of the travel-sequence coordinator of the space-cv repository.

This file is a shallow embedding of the travel subsystem:
`TravelSystem` (src/unnamed/part_001), `HyperspaceTravel`
(src/components/travel/HyperspaceTravel.js), `TravelConfirmation`
(src/components/travel/TravelConfirmation.js) and `TravelAudio`
(src/unnamed/part_003, second class).

Modelling conventions, applied uniformly:
* The single-threaded, timer-driven JS runtime is modelled by a state
  record `SysState` plus a queue of scheduled callbacks (`Timer`); every JS
  method becomes a function `SysState → SysState`.  `setTimeout` appends to
  the queue (kept sorted by due time, stable for equal times, matching the
  event-loop firing order); `runUntil` fires every due callback in order.
* Handles stored in `TravelSystem.phaseTimers` are marked `tracked`;
  `clearPhaseTimers` cancels exactly those.  The anonymous `setTimeout`
  calls in `HyperspaceTravel` produce untracked entries that no code path
  can cancel, exactly as in the source.
* THREE.js scene data is reduced to the observables the travel code reads
  or writes: camera pose, scene background, fog, renderer clear color and
  alpha are abstract numeric codes (`Option Nat`, `none` = JS null), and
  object sets become visibility booleans.  Star positions, warp speed and
  all purely decorative per-frame animation are omitted: the repository
  treats them as outside the phase contract (only the reported
  active/visible flags are consulted by the coordinator).
* DOM element text/styling is omitted; DOM visibility toggles the
  coordinator later branches on (overlay shown/hidden, cockpit class,
  pointer events) are modelled as booleans.
* A JS `TypeError` (access of a missing method/property, or a member
  access on null) aborts the rest of the running function or callback; it
  is modelled by appending a message to `errors` and returning, which is
  what an uncaught exception in a `setTimeout` callback does to the rest
  of that callback.
* Calls into the host application (content getters, enableInteractions)
  are the external collaborators; content getters return fixed stand-in
  fragments and every invocation is logged in `contentQueries`.
-/

namespace SpaceCV

/-- A destination planet object.  The travel logic consults only `id`
(`getInfo().name` feeds log strings and the default title of dead code). -/
structure Planet where
  id : String
deriving DecidableEq

/-- The callbacks the travel subsystem passes to `setTimeout`. -/
inductive TimerCb where
  /-- TravelConfirmation.show: entrance animation styling after 50ms (presentation only). -/
  | confirmShowAnim
  /-- TravelConfirmation.hide: overlay receives the hidden class after 300ms (presentation only). -/
  | confirmHideDone
  /-- HyperspaceTravel.startTravel: advance to approach after phaseTimings.hyperspace. -/
  | hTransitionToApproach
  /-- HyperspaceTravel.transitionToApproach: arrival after phaseTimings.approach. -/
  | hArriveAtPlanet
  /-- HyperspaceTravel.arriveAtPlanet: show content after 500ms. -/
  | hShowPlanetContent
  /-- HyperspaceTravel.fadeTransition: run the cleanup callback at +500ms. -/
  | hFadeCleanup
  /-- HyperspaceTravel.fadeTransition: fade the overlay back out at +200ms after cleanup. -/
  | hFadeOut
  /-- HyperspaceTravel.fadeTransition: remove the fade overlay at +500ms after fade-out. -/
  | hFadeRemove
  /-- TravelAudio.simulateAudioDuration: onAudioEnd after the simulated duration. -/
  | audioSimEnd
deriving DecidableEq

/-- One pending `setTimeout` callback.  `tracked` is true when the handle is
stored in `TravelSystem.phaseTimers` (and can hence be cancelled by
`clearPhaseTimers`); the anonymous timeouts of `HyperspaceTravel`,
`TravelConfirmation` and `TravelAudio` are untracked. -/
structure Timer where
  due : Nat
  cb : TimerCb
  tracked : Bool
deriving DecidableEq

/-- TravelSystem.originalState: camera pose plus renderer background state,
captured in the constructor (and by the never-called captureOriginalState). -/
structure SceneSnap where
  cameraPose : Nat
  sceneBackground : Option Nat
  rendererClearColor : Option Nat
  rendererClearAlpha : Option Nat
deriving DecidableEq

/-- HyperspaceTravel.originalSceneState: background, fog and renderer clear
state, initialised to all-null and captured by storeOriginalSceneState. -/
structure HSceneSnap where
  background : Option Nat
  fog : Option Nat
  clearColor : Option Nat
  clearAlpha : Option Nat
deriving DecidableEq

/-- The combined state of the travel subsystem, the scene observables it
mutates, and the event-loop timer queue. -/
structure SysState where
  /-- Current time in ms (Date.now). -/
  now : Nat
  -- TravelSystem fields
  isTravel : Bool
  /-- TravelSystem.currentPhase: orbit, confirmation, traveling, and in the
  dead legacy flow also cockpit, hyperspace, transitioning, approach,
  arrived, content. -/
  tsPhase : String
  tsSelected : Option Planet
  travelStartTime : Nat
  tsOriginal : SceneSnap
  -- HyperspaceTravel fields
  hActive : Bool
  /-- HyperspaceTravel.currentPhase: idle, hyperspace, approach, arrived, content. -/
  hPhase : String
  hSelected : Option Planet
  hStartTime : Nat
  hOriginal : HSceneSnap
  travelGroupVisible : Bool
  starsVisible : Bool
  approachPlanetPresent : Bool
  blackScreenShown : Bool
  cockpitOverlayShown : Bool
  -- scene / renderer / document observables
  cameraPose : Nat
  background : Option Nat
  fog : Option Nat
  clearColor : Option Nat
  clearAlpha : Option Nat
  /-- Visibility of the orbital scene objects (planets, ship), as one flag. -/
  orbitalVisible : Bool
  /-- userData.wasVisibleBeforeTravel marker set by hideOrbitalObjects. -/
  orbitalMarked : Bool
  cockpitActiveClass : Bool
  contentOverlayHidden : Bool
  interactionsEnabled : Bool
  /-- Number of full-screen fade overlay divs currently attached. -/
  fadeOverlayCount : Nat
  -- TravelConfirmation fields
  confVisible : Bool
  confSelected : Option Planet
  -- TravelAudio fields
  audioPlaying : Bool
  /-- TravelAudio.currentAudio is non-null.  Real playback sets it; the
  simulated-duration path leaves it null. -/
  audioCurrentReal : Bool
  -- instrumentation of the external collaborators
  /-- Identifiers passed to the content-provider getters of the app, in call order. -/
  contentQueries : List String
  /-- Messages of uncaught JS exceptions raised so far. -/
  errors : List String
  -- event loop
  timers : List Timer
deriving DecidableEq

/-! Timing configuration.  `HyperspaceTravel.phaseTimings` drives the live
flow; `TravelSystem.travelConfig.phases` is consulted only by the dead
legacy flow of TravelSystem. -/

/-- HyperspaceTravel.phaseTimings.hyperspace (4 seconds). -/
def hyperspaceDuration : Nat := 4000

/-- HyperspaceTravel.phaseTimings.approach (3 seconds). -/
def approachDuration : Nat := 3000

/-- The literal 500ms delay in HyperspaceTravel.arriveAtPlanet before showPlanetContent. -/
def arrivalContentDelay : Nat := 500

/-- TravelSystem.travelConfig.phases.hyperspace (unused by the live flow). -/
def travelConfigHyperspace : Nat := 3000

/-- TravelSystem.travelConfig.phases.planetApproach (unused by the live flow). -/
def travelConfigApproach : Nat := 2000

/-! Event-loop primitives. -/

/-- Insert a timer keeping the queue sorted by due time; for equal due
times the new timer goes after existing ones, matching setTimeout order. -/
def scheduleTimer (l : List Timer) (due : Nat) (cb : TimerCb) (tracked : Bool) : List Timer :=
  match l with
  | [] => [⟨due, cb, tracked⟩]
  | t :: ts =>
    if due < t.due then ⟨due, cb, tracked⟩ :: t :: ts
    else t :: scheduleTimer ts due cb tracked

/-- An anonymous `setTimeout(cb, delay)` whose handle is kept nowhere. -/
def jsSetTimeout (s : SysState) (delay : Nat) (cb : TimerCb) : SysState :=
  { s with timers := scheduleTimer s.timers (s.now + delay) cb false }

/-- A `this.phaseTimers.name = setTimeout(cb, delay)` of TravelSystem. -/
def setPhaseTimer (s : SysState) (delay : Nat) (cb : TimerCb) : SysState :=
  { s with timers := scheduleTimer s.timers (s.now + delay) cb true }

/-- TravelSystem.clearPhaseTimers: clearTimeout on every handle stored in
phaseTimers, then empty the map.  Untracked timers are untouched. -/
def clearPhaseTimers (s : SysState) : SysState :=
  { s with timers := s.timers.filter (fun t => !t.tracked) }

/-! TravelAudio (src/unnamed/part_003).  The audioFiles table ships with
`url: null` for every planet and nothing in the repository ever calls
addPlanetAudio, so the table below is the runtime table. -/

/-- One entry of TravelAudio.audioFiles. -/
structure AudioFileEntry where
  url : Option String
  duration : Nat
  loaded : Bool
  hasBuffer : Bool
  hasElement : Bool
deriving DecidableEq

/-- TravelAudio.audioFiles: the six planet entries, each with url null,
duration 10000, not loaded, no decoded buffer, no HTML5 element. -/
def audioFiles (planetId : String) : Option AudioFileEntry :=
  if planetId = "work-planet" ∨ planetId = "education-planet" ∨
     planetId = "skills-planet" ∨ planetId = "projects-planet" ∨
     planetId = "community-planet" ∨ planetId = "contact-planet" then
    some ⟨none, 10000, false, false, false⟩
  else none

/-- The url configured for a planet (null when the entry is missing too). -/
def audioUrl (planetId : String) : Option String :=
  match audioFiles planetId with
  | some a => a.url
  | none => none

/-- The duration used by simulateAudioDuration: the entry duration when the
entry exists, else the literal 10000 default. -/
def audioDuration (planetId : String) : Nat :=
  match audioFiles planetId with
  | some a => a.duration
  | none => 10000

/-- TravelAudio.onAudioEnd: mark playback finished, drop currentAudio. -/
def onAudioEnd (s : SysState) : SysState :=
  { s with audioPlaying := false, audioCurrentReal := false }

/-- TravelAudio.stop: returns immediately unless `isPlaying` AND
`currentAudio` is non-null; a simulated-duration session keeps
currentAudio null, so stop cannot end it.  Otherwise the real source is
stopped and onAudioEnd runs. -/
def travelAudioStop (s : SysState) : SysState :=
  if !s.audioPlaying || !s.audioCurrentReal then s
  else onAudioEnd s

/-- TravelAudio.simulateAudioDuration: mark playing and schedule onAudioEnd
after the configured duration with an anonymous setTimeout. -/
def simulateAudioDuration (planetId : String) (s : SysState) : SysState :=
  jsSetTimeout { s with audioPlaying := true } (audioDuration planetId) .audioSimEnd

/-- TravelAudio.playAudio: mark playing, then use the decoded buffer or the
HTML5 element; with neither available the thrown error is caught and the
simulated-duration fallback runs. -/
def playAudio (planetId : String) (s : SysState) : SysState :=
  match audioFiles planetId with
  | none => s
  | some a =>
    let s1 := { s with audioPlaying := true }
    if a.hasBuffer || a.hasElement then { s1 with audioCurrentReal := true }
    else simulateAudioDuration planetId s1

/-- The continuation TravelAudio.playVoiceOver passes to
`preloadAudio(planetId).then(...)`: play when the load succeeded, fall
back to the simulated duration when it did not. -/
def preloadThen (planetId : String) (s : SysState) : SysState :=
  match audioFiles planetId with
  | some a => if a.loaded then playAudio planetId s else simulateAudioDuration planetId s
  | none => simulateAudioDuration planetId s

/-- TravelAudio.playVoiceOver: stop a running session first; with no entry
or no configured url, simulate; with an url not yet loaded, start the
async preload (its completion is `preloadThen`); with a loaded clip, play. -/
def playVoiceOver (planetId : String) (s : SysState) : SysState :=
  let s1 := if s.audioPlaying then travelAudioStop s else s
  match audioFiles planetId with
  | none => simulateAudioDuration planetId s1
  | some a =>
    match a.url with
    | none => simulateAudioDuration planetId s1
    | some _ => if a.loaded then playAudio planetId s1 else s1

/-! Content provider (the host app getters), as consumed by
HyperspaceTravel.getContentForPlanet / getTitleForPlanet. -/

/-- The app reference on travelSystem is wired in the constructor. -/
def appPresent : Bool := true

/-- Stand-in fragments returned by the app content getters. -/
def appContentFragment (planetId : String) : String :=
  String.append "fragment:" planetId

/-- Record one invocation of an app content getter. -/
def logContentQuery (planetId : String) (s : SysState) : SysState :=
  { s with contentQueries := s.contentQueries ++ [planetId] }

/-- HyperspaceTravel.getContentForPlanet: a switch over the known planet
identifiers delegating to the app getters, with a literal
content-not-available fallback when the app is missing or the identifier
is unknown.  The returned state records the getter invocation. -/
def getContentForPlanet (planetId : String) (s : SysState) : String × SysState :=
  if appPresent = false then ("<p>Content not available</p>", s)
  else if planetId = "work-planet" ∨ planetId = "education-planet" ∨
          planetId = "skills-planet" ∨ planetId = "projects-planet" ∨
          planetId = "community-planet" ∨ planetId = "contact-planet" ∨
          planetId = "portfolio-nebula" then
    (appContentFragment planetId, logContentQuery planetId s)
  else ("<p>Content not available</p>", s)

/-- HyperspaceTravel.getTitleForPlanet: a title map with the literal
fallback Information for identifiers outside the map. -/
def getTitleForPlanet (planetId : String) : String :=
  if planetId = "work-planet" then "Work Experience"
  else if planetId = "education-planet" then "Education"
  else if planetId = "skills-planet" then "Technical Skills"
  else if planetId = "projects-planet" then "Accolades & Achievements"
  else if planetId = "community-planet" then "Community Work"
  else if planetId = "contact-planet" then "Contact & Connect"
  else if planetId = "portfolio-nebula" then "Creative Portfolio"
  else "Information"

/-! TravelConfirmation. -/

/-- TravelConfirmation.show: no-op when already visible; otherwise store
the planet, mark visible, and schedule the 50ms entrance animation. -/
def travelConfirmationShow (p : Planet) (s : SysState) : SysState :=
  if s.confVisible then s
  else jsSetTimeout { s with confSelected := some p, confVisible := true } 50 .confirmShowAnim

/-- TravelConfirmation.hide: no-op when not visible; otherwise mark hidden,
schedule the 300ms class toggle, and clear the pending planet. -/
def travelConfirmationHide (s : SysState) : SysState :=
  if !s.confVisible then s
  else jsSetTimeout { s with confVisible := false, confSelected := none } 300 .confirmHideDone

/-! TravelSystem interaction toggles. -/

/-- app.enableInteractions, as reached from several cleanup paths. -/
def appEnableInteractions (s : SysState) : SysState :=
  { s with interactionsEnabled := true }

/-- TravelSystem.disablePlanetInteractions: canvas pointer events off,
info/navigation panels hidden. -/
def disablePlanetInteractions (s : SysState) : SysState :=
  { s with interactionsEnabled := false }

/-- TravelSystem.enablePlanetInteractions: canvas pointer events on,
navigation restored, then app.enableInteractions. -/
def enablePlanetInteractions (s : SysState) : SysState :=
  appEnableInteractions s

/-! HyperspaceTravel: the live travel flow. -/

/-- HyperspaceTravel.storeOriginalSceneState. -/
def storeOriginalSceneState (s : SysState) : SysState :=
  { s with hOriginal := ⟨s.background, s.fog, s.clearColor, s.clearAlpha⟩ }

/-- HyperspaceTravel.setupTravelScene: black background, no fog, black
clear color with alpha 1 (color code 0 stands for black). -/
def setupTravelScene (s : SysState) : SysState :=
  { s with background := some 0, fog := none, clearColor := some 0, clearAlpha := some 1 }

/-- HyperspaceTravel.showTravelInterface. -/
def showTravelInterface (s : SysState) : SysState :=
  { s with blackScreenShown := true, cockpitOverlayShown := true, cockpitActiveClass := true }

/-- HyperspaceTravel.hideOrbitalObjects: hide the visible orbital objects
and mark them wasVisibleBeforeTravel. -/
def hideOrbitalObjects (s : SysState) : SysState :=
  if s.orbitalVisible then { s with orbitalVisible := false, orbitalMarked := true } else s

/-- HyperspaceTravel.startHyperspacePhase: phase to hyperspace, travel
group and stars visible (star positions are decorative and omitted). -/
def startHyperspacePhase (s : SysState) : SysState :=
  { s with hPhase := "hyperspace", travelGroupVisible := true, starsVisible := true }

/-- HyperspaceTravel.startTravel: guarded by isActive only.  Performs the
phase-entry effects synchronously, then schedules the (anonymous,
uncancellable) advance to approach after phaseTimings.hyperspace. -/
def hStartTravel (p : Planet) (s : SysState) : SysState :=
  if s.hActive then s
  else
    let s1 := { s with hActive := true, hSelected := some p,
                       hPhase := "hyperspace", hStartTime := s.now }
    let s2 := startHyperspacePhase (hideOrbitalObjects (showTravelInterface
                (setupTravelScene (storeOriginalSceneState s1))))
    jsSetTimeout s2 hyperspaceDuration .hTransitionToApproach

/-- HyperspaceTravel.createApproachPlanet: returns early with no planet
selected; otherwise replaces the approach planet mesh. -/
def createApproachPlanet (s : SysState) : SysState :=
  match s.hSelected with
  | none => s
  | some _ => { s with approachPlanetPresent := true }

/-- HyperspaceTravel.transitionToApproach: stale-guard on phase hyperspace;
hides the stars, creates the approach planet, and schedules the
(anonymous) arrival after phaseTimings.approach. -/
def hTransitionToApproach (s : SysState) : SysState :=
  if s.hPhase ≠ "hyperspace" then s
  else jsSetTimeout (createApproachPlanet { s with hPhase := "approach", starsVisible := false })
        approachDuration .hArriveAtPlanet

/-- HyperspaceTravel.arriveAtPlanet: stale-guard on phase approach, then
schedules showPlanetContent after 500ms. -/
def hArriveAtPlanet (s : SysState) : SysState :=
  if s.hPhase ≠ "approach" then s
  else jsSetTimeout { s with hPhase := "arrived" } arrivalContentDelay .hShowPlanetContent

/-- HyperspaceTravel.showPlanetContent: NO stale-guard.  Sets phase to
content first; then `this.selectedPlanet.id` raises a TypeError when no
planet is selected (aborting the callback); otherwise the content getter
is invoked and the content overlay is revealed. -/
def hShowPlanetContent (s : SysState) : SysState :=
  let s1 := { s with hPhase := "content" }
  match s1.hSelected with
  | none => { s1 with errors := s1.errors ++
      ["TypeError: this.selectedPlanet is null in showPlanetContent"] }
  | some p =>
    let cs := getContentForPlanet p.id s1
    { cs.2 with contentOverlayHidden := false }

/-- HyperspaceTravel.hideTravelEffects (star position resets omitted as
decorative). -/
def hideTravelEffects (s : SysState) : SysState :=
  { s with travelGroupVisible := false, starsVisible := false, approachPlanetPresent := false }

/-- HyperspaceTravel.hideTravelInterface. -/
def hideTravelInterface (s : SysState) : SysState :=
  { s with blackScreenShown := false, cockpitOverlayShown := false, cockpitActiveClass := false }

/-- HyperspaceTravel.restoreOriginalScene. -/
def restoreOriginalScene (s : SysState) : SysState :=
  { s with background := s.hOriginal.background, fog := s.hOriginal.fog,
           clearColor := s.hOriginal.clearColor, clearAlpha := s.hOriginal.clearAlpha }

/-- HyperspaceTravel.restoreOrbitalObjects: re-show every object marked
wasVisibleBeforeTravel and clear the marker. -/
def restoreOrbitalObjects (s : SysState) : SysState :=
  if s.orbitalMarked then { s with orbitalVisible := true, orbitalMarked := false } else s

/-- HyperspaceTravel.executeCompleteCleanup: reset the travel state fields,
hide effects and interface, restore the stored scene state, restore the
orbital objects, re-enable interactions. -/
def executeCompleteCleanup (s : SysState) : SysState :=
  appEnableInteractions (restoreOrbitalObjects (restoreOriginalScene (hideTravelInterface
    (hideTravelEffects { s with hActive := false, hPhase := "idle", hSelected := none }))))

/-- HyperspaceTravel.fadeTransition with executeCompleteCleanup as the
callback: attach a fade overlay and schedule the cleanup at +500ms (the
callback later schedules the fade-out and removal steps). -/
def fadeTransitionCleanup (s : SysState) : SysState :=
  jsSetTimeout { s with fadeOverlayCount := s.fadeOverlayCount + 1 } 500 .hFadeCleanup

/-- HyperspaceTravel.returnToOrbit: hide the content overlay, then run the
complete cleanup behind a fade transition. -/
def hReturnToOrbit (s : SysState) : SysState :=
  fadeTransitionCleanup { s with contentOverlayHidden := true }

/-- HyperspaceTravel.stop: delegates to returnToOrbit when active. -/
def hStop (s : SysState) : SysState :=
  if s.hActive then hReturnToOrbit s else s

/-- HyperspaceTravel.emergencyStop: immediate executeCompleteCleanup. -/
def hEmergencyStop (s : SysState) : SysState :=
  executeCompleteCleanup s

/-- HyperspaceTravel.reset: immediate executeCompleteCleanup. -/
def hReset (s : SysState) : SysState :=
  executeCompleteCleanup s

/-- HyperspaceTravel.emergencyCleanup: delegates to emergencyStop. -/
def hEmergencyCleanup (s : SysState) : SysState :=
  hEmergencyStop s

/-! TravelSystem: the coordinator. -/

/-- TravelSystem.initiatePlanetTravel: rejected only while `isTravel` is
true (the phase is NOT consulted); otherwise stores the planet, sets phase
confirmation, and shows the dialog. -/
def initiatePlanetTravel (p : Planet) (s : SysState) : SysState :=
  if s.isTravel then s
  else travelConfirmationShow p
        { s with tsSelected := some p, tsPhase := "confirmation" }

/-- TravelSystem.startTravelSequence (the confirm operation): rejected only
when `selectedPlanet` is null (the phase is NOT consulted); otherwise
marks travel active, stamps the start time, sets phase traveling, hides
the dialog, disables interactions, and hands over to
HyperspaceTravel.startTravel. -/
def startTravelSequence (s : SysState) : SysState :=
  match s.tsSelected with
  | none => s
  | some p =>
    hStartTravel p (disablePlanetInteractions (travelConfirmationHide
      { s with isTravel := true, travelStartTime := s.now, tsPhase := "traveling" }))

/-- TravelSystem.resetTravelState. -/
def resetTravelState (s : SysState) : SysState :=
  clearPhaseTimers
    { s with isTravel := false, tsPhase := "orbit", tsSelected := none, travelStartTime := 0 }

/-- TravelSystem.cancelTravel: phase to orbit, drop the selection, hide the
dialog, clear the TRACKED phase timers, reset the travel state, re-enable
interactions.  It touches neither HyperspaceTravel nor TravelAudio, nor
the scene, nor the anonymous timers. -/
def cancelTravel (s : SysState) : SysState :=
  enablePlanetInteractions (resetTravelState (clearPhaseTimers (travelConfirmationHide
    { s with tsPhase := "orbit", tsSelected := none })))

/-- TravelSystem.executeCompleteRestoration: reset the coordinator fields,
delegate scene restoration to HyperspaceTravel.returnToOrbit (which defers
the actual cleanup behind a 500ms fade), re-enable interactions. -/
def executeCompleteRestoration (s : SysState) : SysState :=
  enablePlanetInteractions (hReturnToOrbit
    { s with isTravel := false, tsPhase := "orbit", tsSelected := none, travelStartTime := 0 })

/-- TravelSystem.returnToOrbit: hide the content overlay, clear the tracked
phase timers, run the complete restoration. -/
def returnToOrbit (s : SysState) : SysState :=
  executeCompleteRestoration (clearPhaseTimers { s with contentOverlayHidden := true })

/-- TravelSystem.forceStopAllTravelComponents: clear tracked timers, stop
and emergency-clean HyperspaceTravel, stop audio.  The planetApproach and
cockpitView members are undefined on TravelSystem, so their guarded
blocks are skipped. -/
def forceStopAllTravelComponents (s : SysState) : SysState :=
  travelAudioStop (hEmergencyCleanup (hStop (clearPhaseTimers s)))

/-- TravelSystem.emergencyReturnToOrbit: clear tracked timers, force-stop
all components, run the complete restoration. -/
def emergencyReturnToOrbit (s : SysState) : SysState :=
  executeCompleteRestoration (forceStopAllTravelComponents (clearPhaseTimers s))

/-- TravelSystem.startHyperspaceSequence (legacy flow, reachable only from
the cockpit phase): sets phase hyperspace, skips the undefined
planetApproach, then calls `this.hyperspaceTravel.start()` — HyperspaceTravel
declares NO method named start (its entry point is startTravel), so a
TypeError is raised and the method aborts BEFORE the 100ms validation
check, the voice-over, and the approach-transition timer are scheduled. -/
def startHyperspaceSequence (s : SysState) : SysState :=
  if s.tsPhase ≠ "cockpit" then s
  else { s with tsPhase := "hyperspace",
                errors := s.errors ++
                  ["TypeError: this.hyperspaceTravel.start is not a function"] }

/-- TravelSystem.validateHyperspaceStarted (legacy flow): with the effect
inactive it attempts the corrective restart via `this.hyperspaceTravel.start()`,
which does not exist, so a TypeError aborts the callback.  The second
check reads `this.hyperspaceTravel.hyperspaceGroup`, a property that does
not exist either (the group field is travelGroup), so the undefined value
is falsy and the force-visibility branch can never run. -/
def validateHyperspaceStarted (s : SysState) : SysState :=
  if !s.hActive then
    { s with errors := s.errors ++
        ["TypeError: this.hyperspaceTravel.start is not a function"] }
  else s

/-! The event loop. -/

/-- Dispatch one fired timer callback. -/
def fireTimer (cb : TimerCb) (s : SysState) : SysState :=
  match cb with
  | .confirmShowAnim => s
  | .confirmHideDone => s
  | .hTransitionToApproach => hTransitionToApproach s
  | .hArriveAtPlanet => hArriveAtPlanet s
  | .hShowPlanetContent => hShowPlanetContent s
  | .hFadeCleanup => jsSetTimeout (executeCompleteCleanup s) 200 .hFadeOut
  | .hFadeOut => jsSetTimeout s 500 .hFadeRemove
  | .hFadeRemove => { s with fadeOverlayCount := s.fadeOverlayCount - 1 }
  | .audioSimEnd => onAudioEnd s

/-- Run the event loop up to wall-clock time `t`: fire every pending timer
whose due time is at most `t`, earliest first (the queue is kept sorted),
then advance the clock to `t`.  `fuel` bounds the number of fired
callbacks; every scenario below uses visibly sufficient fuel. -/
def runUntil (fuel : Nat) (t : Nat) (s : SysState) : SysState :=
  match fuel with
  | 0 => s
  | fuel + 1 =>
    match s.timers with
    | [] => { s with now := t }
    | tm :: rest =>
      if tm.due ≤ t then
        runUntil fuel t (fireTimer tm.cb { s with now := tm.due, timers := rest })
      else { s with now := t }

/-! Concrete scenario states. -/

/-- The work-experience planet. -/
def workPlanet : Planet := ⟨"work-planet"⟩

/-- The education planet. -/
def eduPlanet : Planet := ⟨"education-planet"⟩

/-- The state after construction of the app and travel system: orbit view,
nothing selected, camera pose 7, background color 3, fog 4, clear color 5
with alpha 1, orbital objects visible, no pending timers. -/
def initState : SysState where
  now := 0
  isTravel := false
  tsPhase := "orbit"
  tsSelected := none
  travelStartTime := 0
  tsOriginal := ⟨7, some 3, some 5, some 1⟩
  hActive := false
  hPhase := "idle"
  hSelected := none
  hStartTime := 0
  hOriginal := ⟨none, none, none, none⟩
  travelGroupVisible := false
  starsVisible := false
  approachPlanetPresent := false
  blackScreenShown := false
  cockpitOverlayShown := false
  cameraPose := 7
  background := some 3
  fog := some 4
  clearColor := some 5
  clearAlpha := some 1
  orbitalVisible := true
  orbitalMarked := false
  cockpitActiveClass := false
  contentOverlayHidden := true
  interactionsEnabled := true
  fadeOverlayCount := 0
  confVisible := false
  confSelected := none
  audioPlaying := false
  audioCurrentReal := false
  contentQueries := []
  errors := []
  timers := []

/-- The state right after the user selects the work planet and confirms:
initiatePlanetTravel then startTravelSequence, both at time 0. -/
def confirmedRun : SysState :=
  startTravelSequence (initiatePlanetTravel workPlanet initState)

/-- The confirmed run one millisecond later (no timer is due yet). -/
def oneMsLater : SysState := runUntil 99 1 confirmedRun

/-- The state after initiate alone: confirmation dialog up, nothing committed. -/
def confirmingState : SysState := initiatePlanetTravel workPlanet initState

/-- The confirmed run 1000ms in: hyperspace phase, approach timer pending. -/
def midHyperspace : SysState := runUntil 99 1000 confirmedRun

/-- cancelTravel invoked mid-flight at t=1000. -/
def cancelMidFlight : SysState := cancelTravel midHyperspace

/-- The system 8 seconds after the cancel: what the uncancelled anonymous
timers did in the meantime. -/
def cancelAftermath : SysState := runUntil 99 9000 cancelMidFlight

/-- The full forward run, settled at t=8000 (content shown at 7500). -/
def contentArrivedRun : SysState := runUntil 99 8000 confirmedRun

/-- returnToOrbit from content at t=8000, then all pending callbacks run. -/
def returnedRun : SysState := runUntil 99 10000 (returnToOrbit contentArrivedRun)

/-- emergencyReturnToOrbit at t=1000 (mid-hyperspace), then all pending
callbacks run. -/
def emergencyRun : SysState := runUntil 99 6000 (emergencyReturnToOrbit midHyperspace)

/-- Mid-hyperspace with a (simulated) voice-over session active, as the
legacy flow would have started it. -/
def audioHypState : SysState := playVoiceOver "work-planet" midHyperspace

/-- A state in the legacy cockpit phase, about to start the legacy
hyperspace sequence. -/
def cockpitState : SysState :=
  { initState with tsPhase := "cockpit", tsSelected := some workPlanet }

/-- A state where the hyperspace effect reports active but its group is
invisible: the visual-desync situation the validation check targets. -/
def activeInvisibleState : SysState :=
  { initState with hActive := true, hPhase := "hyperspace", travelGroupVisible := false }

/-- The identifiers the content switch and title map know. -/
def knownContentIds : List String :=
  ["work-planet", "education-planet", "skills-planet", "projects-planet",
   "community-planet", "contact-planet", "portfolio-nebula"]

/-- Whether the audio entry for a planet is loaded (false when absent). -/
def audioLoaded (planetId : String) : Bool :=
  match audioFiles planetId with
  | some a => a.loaded
  | none => false

/-! Helper lemmas about the timer queue. -/

/-- Inserting an untracked timer adds nothing to the tracked sublist. -/
theorem filter_tracked_schedule_untracked (l : List Timer) (d : Nat) (cb : TimerCb) :
    (scheduleTimer l d cb false).filter (fun t => t.tracked) =
      l.filter (fun t => t.tracked) := by
  induction l with
  | nil => simp [scheduleTimer]
  | cons t ts ih =>
    by_cases h : d < t.due <;> simp [scheduleTimer, h, List.filter_cons, ih]

/-- After clearPhaseTimers no tracked timer remains, whatever came before. -/
theorem filter_tracked_clear (l : List Timer) :
    ((l.filter (fun t => !t.tracked)).filter (fun t => t.tracked)) = [] := by
  induction l with
  | nil => simp
  | cons t ts ih =>
    by_cases h : t.tracked <;> simp [List.filter_cons, h, ih]

/-- The phase observed by a stale HyperspaceTravel advance timer after an
emergency return: executeCompleteCleanup has put the phase at idle and
nothing later in the chain changes it. -/
theorem emergencyReturnToOrbit_hPhase (s : SysState) :
    (emergencyReturnToOrbit s).hPhase = "idle" := by
  cases ha : s.hActive <;>
    cases hp : s.audioPlaying <;>
      cases hr : s.audioCurrentReal <;>
        cases hm : s.orbitalMarked <;>
          simp [emergencyReturnToOrbit, forceStopAllTravelComponents, clearPhaseTimers,
            hStop, hReturnToOrbit, fadeTransitionCleanup, jsSetTimeout, hEmergencyCleanup,
            hEmergencyStop, executeCompleteCleanup, hideTravelEffects, hideTravelInterface,
            restoreOriginalScene, restoreOrbitalObjects, appEnableInteractions,
            travelAudioStop, onAudioEnd, executeCompleteRestoration,
            enablePlanetInteractions, ha, hp, hr, hm]

/-! Claim C1.  startTravelSequence is guarded by the selection, not the
phase. -/

/-- Claim C1 as stated is false: the confirm operation
(startTravelSequence) checks only that a planet is selected, never the
phase.  One millisecond after a successful confirm the phase is traveling
(not confirmation) and the planet is still selected, so a second call is
NOT a no-op: it re-stamps travelStartTime with the current time. -/
theorem c1_confirm_not_phase_guarded_cex :
    oneMsLater.tsPhase = "traveling" ∧
    ¬ startTravelSequence oneMsLater = oneMsLater := by
  constructor
  · rfl
  · decide

/-- Claim C1 amended: startTravelSequence is a no-op exactly on the
missing-selection guard.  For every coordinator state with selectedPlanet
null, startTravelSequence changes nothing and schedules no timer; the
phase plays no part in the guard. -/
theorem c1_confirm_noop_when_no_selection (s : SysState)
    (h : s.tsSelected = none) : startTravelSequence s = s := by
  simp [startTravelSequence, h]

/-- Witness for the amended claim C1 at the initial state. -/
theorem c1_confirm_noop_witness :
    initState.tsSelected = none ∧ startTravelSequence initState = initState :=
  ⟨rfl, c1_confirm_noop_when_no_selection initState rfl⟩

/-! Claim C2.  initiatePlanetTravel is guarded by isTravel, not the phase. -/

/-- Claim C2 as stated is false: initiatePlanetTravel checks only
isTravel, which stays false during the confirmation phase, so a second
initiate while the dialog is up (phase confirmation, not the idle/orbit
phase) overwrites the stored planet. -/
theorem c2_initiate_overwrites_in_confirmation_cex :
    confirmingState.tsPhase = "confirmation" ∧
    confirmingState.isTravel = false ∧
    confirmingState.tsSelected = some workPlanet ∧
    (initiatePlanetTravel eduPlanet confirmingState).tsSelected = some eduPlanet := by
  refine ⟨rfl, rfl, rfl, rfl⟩

/-- Claim C2 amended: for every coordinator state with isTravel true (set
by confirm, cleared on restore/cancel), initiatePlanetTravel is a no-op
and in particular does not overwrite the in-flight selectedPlanet. -/
theorem c2_initiate_noop_when_travel (s : SysState) (p : Planet)
    (h : s.isTravel = true) : initiatePlanetTravel p s = s := by
  simp [initiatePlanetTravel, h]

/-- Witness for the amended claim C2 on a traveling state. -/
theorem c2_initiate_noop_witness :
    ({ initState with isTravel := true } : SysState).isTravel = true ∧
      initiatePlanetTravel eduPlanet { initState with isTravel := true }
        = { initState with isTravel := true } :=
  ⟨rfl, c2_initiate_noop_when_travel { initState with isTravel := true } eduPlanet rfl⟩

/-! Claim C3.  Restoration after returnToOrbit / cancel / emergencyReturn. -/

/-- Claim C3 as stated is false for sequences ending in cancelTravel: a
cancel at t=1000 mid-hyperspace leaves the black travel background in
place (pre-travel background was color 3), and the anonymous approach
timer scheduled by the attempt is still pending. -/
theorem c3_cancel_does_not_restore_cex :
    cancelMidFlight.tsPhase = "orbit" ∧
    initState.background = some 3 ∧
    cancelMidFlight.background = some 0 ∧
    cancelMidFlight.timers = [⟨4000, .hTransitionToApproach, false⟩] := by
  refine ⟨rfl, rfl, rfl, rfl⟩

/-- Claim C3 amended: restricted to returnToOrbit (from content) and
emergencyReturnToOrbit (mid-flight), and read at quiescence: once every
pending callback has run, camera pose and renderer background/clear state
equal the pre-travel values, the coordinator is back at orbit/idle with no
travel in progress, the orbital objects are visible again, and the timer
queue is empty.  cancelTravel gives no such guarantee (see the
counterexample), and immediately after the call the fade-transition
callbacks are still pending, so quiescence is the honest readout point. -/
theorem c3_return_and_emergency_restore :
    (returnedRun.cameraPose = initState.cameraPose ∧
     returnedRun.background = initState.background ∧
     returnedRun.clearColor = initState.clearColor ∧
     returnedRun.clearAlpha = initState.clearAlpha ∧
     returnedRun.tsPhase = "orbit" ∧ returnedRun.hPhase = "idle" ∧
     returnedRun.isTravel = false ∧ returnedRun.hActive = false ∧
     returnedRun.orbitalVisible = true ∧ returnedRun.fadeOverlayCount = 0 ∧
     returnedRun.timers = []) ∧
    (emergencyRun.cameraPose = initState.cameraPose ∧
     emergencyRun.background = initState.background ∧
     emergencyRun.clearColor = initState.clearColor ∧
     emergencyRun.clearAlpha = initState.clearAlpha ∧
     emergencyRun.tsPhase = "orbit" ∧ emergencyRun.hPhase = "idle" ∧
     emergencyRun.isTravel = false ∧ emergencyRun.hActive = false ∧
     emergencyRun.orbitalVisible = true ∧ emergencyRun.fadeOverlayCount = 0 ∧
     emergencyRun.timers = []) := by
  exact ⟨⟨rfl, rfl, rfl, rfl, rfl, rfl, rfl, rfl, rfl, rfl, rfl⟩,
         ⟨rfl, rfl, rfl, rfl, rfl, rfl, rfl, rfl, rfl, rfl, rfl⟩⟩

/-! Claim C4.  Orphaned timers after cancel / emergency reset. -/

/-- Claim C4 as stated is false: the phase-advance timers scheduled by
HyperspaceTravel.startTravel are anonymous setTimeouts that no cleanup
path can cancel.  After a cancel at t=1000 the approach timer is still
pending, and far from being cancelled before executing, it fires with
full effect: the cancelled attempt still advances to content, queries the
content provider, and re-opens the content overlay. -/
theorem c4_orphan_timer_fires_cex :
    cancelMidFlight.timers ≠ [] ∧
    cancelAftermath.hPhase = "content" ∧
    cancelAftermath.contentQueries = ["work-planet"] ∧
    cancelAftermath.contentOverlayHidden = false := by
  refine ⟨by decide, rfl, rfl, rfl⟩

/-- Claim C4 amended: only the timers registered in
TravelSystem.phaseTimers are cancelled — cancelTravel and
emergencyReturnToOrbit leave no tracked timer pending, for every starting
state.  The anonymous HyperspaceTravel advance timers survive; after an
emergencyReturnToOrbit their callbacks are neutralised by the stale-phase
guards (the phase is back at idle), not by cancellation. -/
theorem c4_tracked_timers_cleared (s : SysState) :
    ((cancelTravel s).timers.filter (fun t => t.tracked) = [] ∧
     (emergencyReturnToOrbit s).timers.filter (fun t => t.tracked) = []) ∧
    (hTransitionToApproach (emergencyReturnToOrbit s) = emergencyReturnToOrbit s ∧
     hArriveAtPlanet (emergencyReturnToOrbit s) = emergencyReturnToOrbit s) := by
  refine ⟨⟨?_, ?_⟩, ?_, ?_⟩
  · cases hc : s.confVisible <;>
      simp [cancelTravel, travelConfirmationHide, jsSetTimeout, clearPhaseTimers,
        resetTravelState, enablePlanetInteractions, appEnableInteractions, hc,
        filter_tracked_schedule_untracked, filter_tracked_clear]
  · cases ha : s.hActive <;>
      cases hp : s.audioPlaying <;>
        cases hr : s.audioCurrentReal <;>
          cases hm : s.orbitalMarked <;>
            simp [emergencyReturnToOrbit, forceStopAllTravelComponents, clearPhaseTimers,
              hStop, hReturnToOrbit, fadeTransitionCleanup, jsSetTimeout, hEmergencyCleanup,
              hEmergencyStop, executeCompleteCleanup, hideTravelEffects, hideTravelInterface,
              restoreOriginalScene, restoreOrbitalObjects, appEnableInteractions,
              travelAudioStop, onAudioEnd, executeCompleteRestoration,
              enablePlanetInteractions, ha, hp, hr, hm,
              filter_tracked_schedule_untracked, filter_tracked_clear]
  · simp [hTransitionToApproach, emergencyReturnToOrbit_hPhase]
  · simp [hArriveAtPlanet, emergencyReturnToOrbit_hPhase]

/-! Claim C5.  Audio on cancel during hyperspace. -/

/-- Claim C5 as stated is false: cancelTravel never touches TravelAudio.
Mid-hyperspace with an active (simulated) voice-over session,
isAudioPlaying is still true immediately after cancelTravel returns. -/
theorem c5_cancel_leaves_audio_playing_cex :
    audioHypState.hPhase = "hyperspace" ∧
    audioHypState.audioPlaying = true ∧
    (cancelTravel audioHypState).audioPlaying = true := by
  refine ⟨rfl, rfl, rfl⟩

/-- Claim C5 amended: cancelTravel leaves the audio session untouched
(isAudioPlaying still true), and even TravelAudio.stop cannot end a
simulated-duration session, because such a session keeps currentAudio
null and stop returns immediately; the session ends only when its own
duration timer fires onAudioEnd. -/
theorem c5_cancel_audio_untouched (s : SysState)
    (h1 : s.audioPlaying = true) (h2 : s.audioCurrentReal = false) :
    (cancelTravel s).audioPlaying = true ∧
    travelAudioStop s = s ∧
    (fireTimer .audioSimEnd (cancelTravel s)).audioPlaying = false := by
  refine ⟨?_, ?_, ?_⟩
  · cases hc : s.confVisible <;>
      simp [cancelTravel, travelConfirmationHide, jsSetTimeout, clearPhaseTimers,
        resetTravelState, enablePlanetInteractions, appEnableInteractions, hc, h1]
  · simp [travelAudioStop, h2]
  · simp [fireTimer, onAudioEnd]

/-- Witness for the amended claim C5 on a simulated session state. -/
theorem c5_cancel_audio_witness :
    ({ initState with audioPlaying := true } : SysState).audioPlaying = true ∧
    ((cancelTravel { initState with audioPlaying := true }).audioPlaying = true ∧
     travelAudioStop { initState with audioPlaying := true }
       = { initState with audioPlaying := true } ∧
     (fireTimer .audioSimEnd
       (cancelTravel { initState with audioPlaying := true })).audioPlaying = false) :=
  ⟨rfl, c5_cancel_audio_untouched { initState with audioPlaying := true } rfl rfl⟩

/-! Claim C6.  The canonical work-planet scenario timings. -/

/-- Claim C6 as stated is false: the live flow ignores
TravelSystem.travelConfig (hyperspace 3000 / approach 2000) and runs on
HyperspaceTravel.phaseTimings (4000 / 3000); and even with those
durations, when hyperspace plus approach have elapsed (t=7000) the phase
is arrived, not content, and the content provider has not yet been
queried — content only appears 500ms later. -/
theorem c6_scenario_timing_cex :
    (runUntil 99 travelConfigHyperspace confirmedRun).hPhase = "hyperspace" ∧
    (runUntil 99 (travelConfigHyperspace + travelConfigApproach) confirmedRun).hPhase
      = "approach" ∧
    (runUntil 99 (hyperspaceDuration + approachDuration) confirmedRun).hPhase
      = "arrived" ∧
    (runUntil 99 (hyperspaceDuration + approachDuration) confirmedRun).contentQueries
      = [] := by
  refine ⟨rfl, rfl, rfl, rfl⟩

/-- Claim C6 amended: with the durations the live flow actually uses
(HyperspaceTravel.phaseTimings: hyperspace 4000ms, approach 3000ms) the
phase is approach once the hyperspace duration has elapsed, and once
hyperspace, approach AND the 500ms arrival delay have elapsed the phase
is content and the content provider has been queried exactly once, with
the identifier work-planet. -/
theorem c6_scenario_timing :
    (runUntil 99 hyperspaceDuration confirmedRun).hPhase = "approach" ∧
    (runUntil 99 (hyperspaceDuration + approachDuration + arrivalContentDelay)
        confirmedRun).hPhase = "content" ∧
    (runUntil 99 (hyperspaceDuration + approachDuration + arrivalContentDelay)
        confirmedRun).contentQueries = ["work-planet"] := by
  refine ⟨rfl, rfl, rfl⟩

/-! Claim C7.  The hyperspace validation check (legacy flow). -/

/-- Claim C7 describes the intended validation behaviour, but the code
cannot deliver it: entering the legacy hyperspace phase calls
hyperspaceTravel.start(), a method that does not exist, so a TypeError
aborts startHyperspaceSequence before the 100ms validation check and the
approach-advance timer are ever scheduled (timer queue stays empty, no
audio starts, and the phase is stuck at hyperspace).  Independently,
validateHyperspaceStarted itself would raise the same TypeError on its
corrective-restart branch, and its force-visibility branch reads the
nonexistent hyperspaceGroup property, so an active-but-invisible effect
is left invisible with no corrective call. -/
theorem c7_validation_broken :
    ((startHyperspaceSequence cockpitState).tsPhase = "hyperspace" ∧
     (startHyperspaceSequence cockpitState).errors
       = ["TypeError: this.hyperspaceTravel.start is not a function"] ∧
     (startHyperspaceSequence cockpitState).timers = [] ∧
     (startHyperspaceSequence cockpitState).audioPlaying = false) ∧
    ((validateHyperspaceStarted initState).errors
       = ["TypeError: this.hyperspaceTravel.start is not a function"] ∧
     validateHyperspaceStarted activeInvisibleState = activeInvisibleState ∧
     activeInvisibleState.travelGroupVisible = false ∧
     (validateHyperspaceStarted activeInvisibleState).travelGroupVisible = false) := by
  refine ⟨⟨rfl, rfl, rfl, rfl⟩, rfl, rfl, rfl, rfl⟩

/-! Claim C8.  Content-provider fallback for unknown identifiers. -/

/-- Claim C8 confirmed: for every identifier outside the known planet set,
getContentForPlanet returns the literal content-not-available fallback
without invoking any app getter (the state, including the query log, is
unchanged), and getTitleForPlanet returns the fallback title Information;
both are total functions that never throw. -/
theorem c8_unknown_id_fallback (pid : String) (s : SysState)
    (h : pid ∉ knownContentIds) :
    (getContentForPlanet pid s).1 = "<p>Content not available</p>" ∧
    (getContentForPlanet pid s).2 = s ∧
    getTitleForPlanet pid = "Information" := by
  simp [knownContentIds] at h
  obtain ⟨h1, h2, h3, h4, h5, h6, h7⟩ := h
  refine ⟨?_, ?_, ?_⟩ <;>
    simp [getContentForPlanet, getTitleForPlanet, appPresent, h1, h2, h3, h4, h5, h6, h7]

/-- Witness for claim C8 at a concrete unknown identifier. -/
theorem c8_unknown_id_witness :
    "mystery-planet" ∉ knownContentIds ∧
    ((getContentForPlanet "mystery-planet" initState).1
        = "<p>Content not available</p>" ∧
     (getContentForPlanet "mystery-planet" initState).2 = initState ∧
     getTitleForPlanet "mystery-planet" = "Information") :=
  ⟨by decide, c8_unknown_id_fallback "mystery-planet" initState (by decide)⟩

/-! Claim C9.  Voice-over fallback to simulated duration. -/

/-- Claim C9 confirmed: with no session already playing, for every planet
identifier with no configured clip url (which in the shipped table is
every identifier), playVoiceOver is exactly the simulated-duration
fallback: the session is marked playing, the end-of-audio callback is
scheduled after the configured duration on top of the existing timers
(travel phases and timers are untouched, so sequence timing is
unaffected), firing it ends the session via onAudioEnd; and the
load-failure continuation (preload resolved without the clip loaded)
falls back to the very same simulated duration. -/
theorem c9_voiceover_fallback (pid : String) (s : SysState)
    (h1 : s.audioPlaying = false) (h2 : audioUrl pid = none)
    (h3 : audioLoaded pid = false) :
    playVoiceOver pid s = simulateAudioDuration pid s ∧
    (playVoiceOver pid s).audioPlaying = true ∧
    (playVoiceOver pid s).timers
      = scheduleTimer s.timers (s.now + audioDuration pid) .audioSimEnd false ∧
    (playVoiceOver pid s).hPhase = s.hPhase ∧
    (playVoiceOver pid s).tsPhase = s.tsPhase ∧
    (fireTimer .audioSimEnd (playVoiceOver pid s)).audioPlaying = false ∧
    preloadThen pid s = simulateAudioDuration pid s := by
  have hmain : playVoiceOver pid s = simulateAudioDuration pid s := by
    cases hf : audioFiles pid with
    | none => simp [playVoiceOver, hf, h1]
    | some a =>
      have hu : a.url = none := by simpa [audioUrl, hf] using h2
      simp [playVoiceOver, hf, h1, hu]
  have hpre : preloadThen pid s = simulateAudioDuration pid s := by
    cases hf : audioFiles pid with
    | none => simp [preloadThen, hf]
    | some a =>
      have hl : a.loaded = false := by simpa [audioLoaded, hf] using h3
      simp [preloadThen, hf, hl]
  refine ⟨hmain, ?_, ?_, ?_, ?_, ?_, hpre⟩ <;>
    simp [hmain, simulateAudioDuration, jsSetTimeout, fireTimer, onAudioEnd]

/-- Witness for claim C9 at the work planet from the initial state. -/
theorem c9_voiceover_witness :
    (initState.audioPlaying = false ∧ audioUrl "work-planet" = none ∧
     audioLoaded "work-planet" = false) ∧
    ((playVoiceOver "work-planet" initState).audioPlaying = true ∧
     (fireTimer .audioSimEnd (playVoiceOver "work-planet" initState)).audioPlaying
       = false) :=
  ⟨⟨rfl, by decide, by decide⟩,
   ⟨(c9_voiceover_fallback "work-planet" initState rfl (by decide) (by decide)).2.1,
    (c9_voiceover_fallback "work-planet" initState rfl (by decide) (by decide)).2.2.2.2.2.1⟩⟩

/-! Claim C10.  Idempotence of executeCompleteCleanup. -/

/-- Claim C10 confirmed: executeCompleteCleanup is idempotent and safe
from any state — a second invocation changes nothing — and reset,
emergencyStop and emergencyCleanup are definitionally the same cleanup;
after one invocation the effect is inactive and idle with no planet
selected, every travel effect and the travel interface hidden, the saved
scene state restored and the orbital objects back. -/
theorem c10_cleanup_idempotent (s : SysState) :
    executeCompleteCleanup (executeCompleteCleanup s) = executeCompleteCleanup s ∧
    (hReset s = executeCompleteCleanup s ∧
     hEmergencyStop s = executeCompleteCleanup s ∧
     hEmergencyCleanup s = executeCompleteCleanup s) ∧
    ((executeCompleteCleanup s).hActive = false ∧
     (executeCompleteCleanup s).hPhase = "idle" ∧
     (executeCompleteCleanup s).hSelected = none ∧
     (executeCompleteCleanup s).travelGroupVisible = false ∧
     (executeCompleteCleanup s).starsVisible = false ∧
     (executeCompleteCleanup s).approachPlanetPresent = false ∧
     (executeCompleteCleanup s).blackScreenShown = false ∧
     (executeCompleteCleanup s).cockpitOverlayShown = false ∧
     (executeCompleteCleanup s).cockpitActiveClass = false ∧
     (executeCompleteCleanup s).background = s.hOriginal.background ∧
     (executeCompleteCleanup s).fog = s.hOriginal.fog ∧
     (executeCompleteCleanup s).clearColor = s.hOriginal.clearColor ∧
     (executeCompleteCleanup s).clearAlpha = s.hOriginal.clearAlpha ∧
     (executeCompleteCleanup s).interactionsEnabled = true) := by
  refine ⟨?_, ⟨rfl, rfl, rfl⟩, ?_⟩ <;>
    cases hm : s.orbitalMarked <;>
      simp [executeCompleteCleanup, hideTravelEffects, hideTravelInterface,
        restoreOriginalScene, restoreOrbitalObjects, appEnableInteractions, hm]

end SpaceCV
